import Mathlib

/-!
# Verification of the e-commerce web application (src/app.py)

Shallow embedding of the Flask store application.  Prices are integers in
minor currency units (cents), as in the source (`Product.price` is an
integer column).  The session cart is a Python dict mapping `str(product_id)`
to a quantity; since every key is produced by `str` on the integer route
parameter and read back with `int`, keys are modelled as `Nat`.  A Python
dict is modelled as an association list with unique keys: assignment
updates the first matching entry in place or appends a fresh entry at the
end, exactly as dict assignment preserves insertion order.
-/

set_option autoImplicit false

namespace Shop

/-- `Product` database model (src/app.py lines 52-62): id, name, price in
cents, optional description and image. -/
structure Product where
  id : Nat
  name : String
  price : Nat
  description : Option String := none
  image : Option String := none
  deriving Repr, DecidableEq

/-- `User` database model (src/app.py lines 65-75): id, unique username,
password hash. -/
structure User where
  id : Nat
  username : String
  password_hash : String
  deriving Repr, DecidableEq

/-- The catalogue table: the list of product rows. -/
abbrev Catalogue := List Product

/-- `Product.query.get(pid)`: primary-key lookup, `None` when absent. -/
def getProduct (db : Catalogue) (pid : Nat) : Option Product :=
  db.find? (fun p => p.id == pid)

/-- The session cart: Python dict `{str(product_id): quantity}`, modelled as
an association list in insertion order. -/
abbrev Cart := List (Nat × Nat)

namespace Cart

/-- Python `pid in cart` / `cart[pid]` read access: first matching entry. -/
def lookup (cart : Cart) (k : Nat) : Option Nat :=
  match cart with
  | [] => none
  | e :: rest => if e.1 = k then some e.2 else lookup rest k

/-- Python `cart.get(pid, 0)`. -/
def getD (cart : Cart) (k : Nat) : Nat :=
  (cart.lookup k).getD 0

/-- Python dict assignment `cart[pid] = v`: replace the first entry with the
key in place, otherwise append at the end. -/
def set (cart : Cart) (k v : Nat) : Cart :=
  match cart with
  | [] => [(k, v)]
  | e :: rest => if e.1 = k then (k, v) :: rest else e :: set rest k v

/-- Python `cart.pop(pid)`: remove the key. -/
def erase (cart : Cart) (k : Nat) : Cart :=
  match cart with
  | [] => []
  | e :: rest => if e.1 = k then erase rest k else e :: erase rest k

@[simp] theorem lookup_nil (k : Nat) : lookup [] k = none := rfl

@[simp] theorem lookup_set_self (cart : Cart) (k v : Nat) :
    (cart.set k v).lookup k = some v := by
  induction cart with
  | nil => simp [set, lookup]
  | cons e rest ih =>
    by_cases h : e.1 = k <;> simp [set, lookup, h, ih]

@[simp] theorem lookup_set_ne (cart : Cart) (k v q : Nat) (h : q ≠ k) :
    (cart.set k v).lookup q = cart.lookup q := by
  induction cart with
  | nil => simp [set, lookup, Ne.symm h]
  | cons e rest ih =>
    by_cases he : e.1 = k
    · subst he
      simp [set, lookup, Ne.symm h]
    · simp only [set, if_neg he, lookup]
      by_cases hq : e.1 = q <;> simp [hq, ih]

@[simp] theorem lookup_erase_self (cart : Cart) (k : Nat) :
    (cart.erase k).lookup k = none := by
  induction cart with
  | nil => rfl
  | cons e rest ih =>
    by_cases h : e.1 = k <;> simp [erase, h, lookup, ih]

@[simp] theorem lookup_erase_ne (cart : Cart) (k q : Nat) (h : q ≠ k) :
    (cart.erase k).lookup q = cart.lookup q := by
  induction cart with
  | nil => rfl
  | cons e rest ih =>
    by_cases he : e.1 = k
    · have hq : ¬ e.1 = q := by rw [he]; exact Ne.symm h
      simp [erase, he, lookup, hq, ih, Ne.symm h]
    · by_cases hq : e.1 = q <;> simp [erase, he, lookup, hq, ih, h, Ne.symm h]

theorem mem_set (cart : Cart) (k v : Nat) (e : Nat × Nat)
    (h : e ∈ cart.set k v) : e ∈ cart ∨ e = (k, v) := by
  induction cart with
  | nil => simpa [set] using h
  | cons f rest ih =>
    by_cases hf : f.1 = k
    · simp only [set, if_pos hf, List.mem_cons] at h
      rcases h with h | h
      · right; exact h
      · left; exact List.mem_cons_of_mem _ h
    · simp only [set, if_neg hf, List.mem_cons] at h
      rcases h with h | h
      · left; simp [h]
      · rcases ih h with h' | h'
        · left; exact List.mem_cons_of_mem _ h'
        · right; exact h'

theorem mem_of_mem_erase (cart : Cart) (k : Nat) (e : Nat × Nat)
    (h : e ∈ cart.erase k) : e ∈ cart := by
  induction cart with
  | nil => simp [erase] at h
  | cons f rest ih =>
    by_cases hf : f.1 = k
    · simp only [erase, if_pos hf] at h
      exact List.mem_cons_of_mem _ (ih h)
    · simp only [erase, if_neg hf, List.mem_cons] at h
      rcases h with h | h
      · simp [h]
      · exact List.mem_cons_of_mem _ (ih h)

end Cart

/-- The client-side session: optional cart mapping, optional logged-in user
id, and the `session.permanent` flag (30-day expiry). -/
structure Session where
  cart : Option Cart
  user_id : Option Nat
  permanent : Bool
  deriving Repr, DecidableEq

/-- The relational store: the two tables, products and users. -/
structure Store where
  products : List Product
  users : List User
  deriving Repr, DecidableEq

/-- `ensure_cart_exists` (src/app.py lines 111-115): before every request,
if the session has no cart, install an empty one. -/
def ensure_cart_exists (s : Session) : Session :=
  match s.cart with
  | none => { s with cart := some [] }
  | some _ => s

/-- `add_to_cart(product_id)` (src/app.py lines 125-134): if the product
does not exist, redirect without touching the cart; otherwise increment
the quantity stored under the id (`cart.get(pid, 0) + 1`). -/
def add_to_cart (st : Store) (product_id : Nat) (s : Session) : Session :=
  match getProduct st.products product_id with
  | none => s
  | some _ =>
      let cart := s.cart.getD []
      { s with cart := some (cart.set product_id (cart.getD product_id + 1)) }

/-- `remove_from_cart(product_id)` (src/app.py lines 157-168): absent key is
a no-op; quantity above 1 is decremented; quantity 1 (or below) has the key
popped. -/
def remove_from_cart (product_id : Nat) (s : Session) : Session :=
  let cart := s.cart.getD []
  match cart.lookup product_id with
  | none => s
  | some q =>
      if q > 1 then { s with cart := some (cart.set product_id (q - 1)) }
      else { s with cart := some (cart.erase product_id) }

/-- One resolved cart line: product, quantity, and line total in cents (the
source divides by 100 into a `Decimal` only for display). -/
structure LineItem where
  product : Product
  quantity : Nat
  line_total : Nat
  deriving Repr, DecidableEq

/-- The totals loop shared verbatim by `view_cart` (src/app.py lines
137-154) and `checkout` (lines 171-189): resolve each cart entry, silently
skip entries whose product no longer exists, and accumulate
`line_total = price * qty` into the running total. Returns the line-item
list and the grand total in cents. -/
def compute_totals (db : Catalogue) : Cart → List LineItem × Nat
  | [] => ([], 0)
  | (pid, qty) :: rest =>
      let acc := compute_totals db rest
      match getProduct db pid with
      | none => acc
      | some p => (⟨p, qty, p.price * qty⟩ :: acc.1, p.price * qty + acc.2)

/-- `view_cart` (src/app.py lines 137-154): render the totals of the
session cart; the session is not mutated. -/
def view_cart (st : Store) (s : Session) : List LineItem × Nat :=
  compute_totals st.products (s.cart.getD [])

/-- `checkout` (src/app.py lines 171-189): compute the summary from the
pre-checkout cart, then reset the cart to empty. Nothing is written to the
store, so it is returned unchanged. -/
def checkout (st : Store) (s : Session) :
    (List LineItem × Nat) × Session × Store :=
  (compute_totals st.products (s.cart.getD []),
   { s with cart := some [] }, st)

/-- Python whitespace for `str.strip()` (ASCII subset). -/
def isPySpace (c : Char) : Bool :=
  c = ' ' || c = '\t' || c = '\n' || c = '\x0d' || c = '\x0b' || c = '\x0c'

/-- Python `s.strip()`: drop leading and trailing whitespace. -/
def pyStrip (s : String) : String :=
  ⟨(s.data.dropWhile isPySpace).rdropWhile isPySpace⟩

/-- The regex class `[a-z]` from `is_password_valid`. -/
def isLowerAZ (c : Char) : Bool := 'a' ≤ c && c ≤ 'z'

/-- The regex class `[A-Z]` from `is_password_valid`. -/
def isUpperAZ (c : Char) : Bool := 'A' ≤ c && c ≤ 'Z'

/-- The regex class `\d` from `is_password_valid` (ASCII digits). -/
def isDigit09 (c : Char) : Bool := '0' ≤ c && c ≤ '9'

/-- The regex class `[^A-Za-z0-9]` from `is_password_valid`. -/
def isSpecialChar (c : Char) : Bool :=
  !(isLowerAZ c || isUpperAZ c || isDigit09 c)

/-- `is_password_valid` (src/app.py lines 207-214): length at least 8 and
one match for each of the four character classes. -/
def is_password_valid (pwd : String) : Bool :=
  decide (8 ≤ pwd.length)
    && pwd.data.any isLowerAZ
    && pwd.data.any isUpperAZ
    && pwd.data.any isDigit09
    && pwd.data.any isSpecialChar

/-- Outcome of a `register` or `login` POST. -/
inductive AuthResult where
  /-- A flashed message followed by a redirect back to the form. -/
  | validationError (msg : String)
  /-- Redirect to the index, logged in. -/
  | success
  deriving Repr, DecidableEq

/-- `User.query.filter_by(username=...).first()`. -/
def findUser (users : List User) (username : String) : Option User :=
  users.find? (fun u => u.username == username)

/-- Autoincrement primary key assigned on insert. -/
def nextUserId (users : List User) : Nat :=
  (users.map User.id).foldr max 0 + 1

/-- `register` POST branch (src/app.py lines 192-228): strip the username,
reject empty username/password, reject an existing username
(case-sensitive), enforce `is_password_valid` on the raw password, else
insert the user with a salted hash and log the session in. The hash
primitive `generate_password_hash` is external and passed as `hash`. -/
def register (hash : String → String) (st : Store) (s : Session)
    (raw_username password : String) : AuthResult × Store × Session :=
  let username := pyStrip raw_username
  if username = "" ∨ password = "" then
    (.validationError "Username and password are required.", st, s)
  else if (findUser st.users username).isSome then
    (.validationError "Username already exists.", st, s)
  else if ¬ is_password_valid password then
    (.validationError ("Password must be at least 8 characters long and "
      ++ "include uppercase, lowercase, numeric and special characters."),
     st, s)
  else
    let uid := nextUserId st.users
    (.success,
     { st with users := st.users ++ [⟨uid, username, hash password⟩] },
     { s with user_id := some uid })

/-- `login` POST branch (src/app.py lines 233-248): strip the username,
look the user up, and check the password hash (`check_password_hash`,
external, passed as `check`). On success set `user_id` and the permanence
flag from `remember`; on any failure flash one generic message and leave
the session alone. -/
def login (check : String → String → Bool) (st : Store) (s : Session)
    (raw_username password : String) (remember : Bool) :
    AuthResult × Session :=
  let username := pyStrip raw_username
  match findUser st.users username with
  | some user =>
      if check user.password_hash password then
        (.success, { s with user_id := some user.id, permanent := remember })
      else
        (.validationError "Invalid username or password.", s)
  | none => (.validationError "Invalid username or password.", s)

/-- `logout` (src/app.py lines 253-257): `session.pop("user_id", None)`. -/
def logout (s : Session) : Session :=
  { s with user_id := none }

/-! ## Helper lemmas -/

/-- Closed form of the totals loop: the surviving line items are the
entries whose product resolves, and the grand total is the sum of their
line totals. -/
theorem compute_totals_eq (db : Catalogue) (cart : Cart) :
    compute_totals db cart =
      (cart.filterMap (fun e => (getProduct db e.1).map
          (fun p => LineItem.mk p e.2 (p.price * e.2))),
       (cart.filterMap (fun e => (getProduct db e.1).map
          (fun p => p.price * e.2))).sum) := by
  induction cart with
  | nil => rfl
  | cons e rest ih =>
    obtain ⟨pid, qty⟩ := e
    cases h : getProduct db pid <;>
      simp [compute_totals, h, List.filterMap_cons, ih]

/-! ## Claims -/

/-- C1: the totals computation shared by `view_cart` and `checkout`
returns a grand total equal to the sum of `price * quantity` over exactly
the cart entries whose product id resolves to an existing product; entries
with a dangling product id are excluded from both the item list and the
total, and never cause a failure (the computation is total). -/
theorem view_cart_checkout_totals (st : Store) (s : Session) :
    (view_cart st s).2 =
      ((s.cart.getD []).filterMap (fun e =>
        (getProduct st.products e.1).map (fun p => p.price * e.2))).sum
    ∧ (view_cart st s).1 =
      (s.cart.getD []).filterMap (fun e =>
        (getProduct st.products e.1).map
          (fun p => LineItem.mk p e.2 (p.price * e.2)))
    ∧ (checkout st s).1 = view_cart st s := by
  refine ⟨?_, ?_, rfl⟩ <;>
    simp [view_cart, compute_totals_eq]

/-- C2: `checkout` leaves the session cart empty regardless of prior
contents; its summary is computed from the pre-checkout cart by the same
rule as `compute_totals`; the rest of the session and the whole store
(hence the user and product tables — no order record) are unchanged. -/
theorem checkout_clears_cart (st : Store) (s : Session) :
    (checkout st s).2.1.cart = some []
    ∧ (checkout st s).1 = compute_totals st.products (s.cart.getD [])
    ∧ (checkout st s).2.1.user_id = s.user_id
    ∧ (checkout st s).2.1.permanent = s.permanent
    ∧ (checkout st s).2.2 = st :=
  ⟨rfl, rfl, rfl, rfl, rfl⟩

/-- C9: `logout` removes only the `user_id` key: the cart and the
permanence flag are untouched, and `logout` is idempotent. -/
theorem logout_frame (s : Session) :
    (logout s).user_id = none
    ∧ (logout s).cart = s.cart
    ∧ (logout s).permanent = s.permanent
    ∧ logout (logout s) = logout s :=
  ⟨rfl, rfl, rfl, rfl⟩

/-- C3: `remove_from_cart` on an absent key leaves the session unchanged;
on a quantity strictly above 1 it decrements that entry by exactly 1 and
touches no other key; on a quantity-1 entry it deletes the key entirely
and touches no other key. -/
theorem remove_from_cart_spec (s : Session) (cart : Cart) (pid : Nat)
    (hc : s.cart = some cart) :
    (cart.lookup pid = none → remove_from_cart pid s = s)
    ∧ (∀ q, cart.lookup pid = some q → 1 < q →
        (remove_from_cart pid s).cart = some (cart.set pid (q - 1))
        ∧ (cart.set pid (q - 1)).lookup pid = some (q - 1)
        ∧ ∀ k, k ≠ pid → (cart.set pid (q - 1)).lookup k = cart.lookup k)
    ∧ (cart.lookup pid = some 1 →
        (remove_from_cart pid s).cart = some (cart.erase pid)
        ∧ (cart.erase pid).lookup pid = none
        ∧ ∀ k, k ≠ pid → (cart.erase pid).lookup k = cart.lookup k) := by
  refine ⟨fun h => ?_, fun q hq h1 => ⟨?_, ?_, fun k hk => ?_⟩,
    fun h1 => ⟨?_, ?_, fun k hk => ?_⟩⟩
  · simp [remove_from_cart, hc, h]
  · simp [remove_from_cart, hc, hq, h1]
  · simp
  · simp [hk]
  · simp [remove_from_cart, hc, h1]
  · simp
  · simp [hk]

/-- C3 witness: removing an absent key is a no-op on a concrete session. -/
theorem remove_from_cart_spec_witness :
    remove_from_cart 5 ⟨some [(1, 2)], none, false⟩
      = ⟨some [(1, 2)], none, false⟩ :=
  (remove_from_cart_spec ⟨some [(1, 2)], none, false⟩ [(1, 2)] 5 rfl).1 rfl

/-- Adding an existing product bumps the stored quantity by exactly one. -/
theorem add_to_cart_getD (st : Store) (pid : Nat) (s : Session)
    (hp : (getProduct st.products pid).isSome) :
    ((add_to_cart st pid s).cart.getD []).getD pid
      = (s.cart.getD []).getD pid + 1 := by
  obtain ⟨p, h⟩ := Option.isSome_iff_exists.mp hp
  simp [add_to_cart, h, Cart.getD]

/-- C4: `add_to_cart` with an id not in the catalogue leaves the session
unchanged; with an existing id it increments that id's stored quantity by
exactly 1 (a missing entry counting as 0) and touches no other key; hence
`n` iterated adds of a valid id starting from a cart without that key
store quantity exactly `n`. -/
theorem add_to_cart_spec (st : Store) (s : Session) (pid : Nat) :
    (getProduct st.products pid = none → add_to_cart st pid s = s)
    ∧ ((getProduct st.products pid).isSome →
        (add_to_cart st pid s).cart
          = some ((s.cart.getD []).set pid ((s.cart.getD []).getD pid + 1))
        ∧ ((add_to_cart st pid s).cart.getD []).getD pid
          = (s.cart.getD []).getD pid + 1
        ∧ ∀ k, k ≠ pid →
            ((add_to_cart st pid s).cart.getD []).lookup k
              = (s.cart.getD []).lookup k)
    ∧ ((getProduct st.products pid).isSome →
        (s.cart.getD []).lookup pid = none →
        ∀ n, (((add_to_cart st pid)^[n] s).cart.getD []).getD pid = n) := by
  refine ⟨fun h => ?_, fun hp => ⟨?_, add_to_cart_getD st pid s hp, fun k hk => ?_⟩,
    fun hp h0 n => ?_⟩
  · simp [add_to_cart, h]
  · obtain ⟨p, h⟩ := Option.isSome_iff_exists.mp hp
    simp [add_to_cart, h]
  · obtain ⟨p, h⟩ := Option.isSome_iff_exists.mp hp
    simp [add_to_cart, h, hk]
  · induction n with
    | zero => simp [Cart.getD, h0]
    | succ m ih =>
        rw [Function.iterate_succ_apply',
          add_to_cart_getD st pid _ hp, ih]

/-- C4 witness: three adds of product 1 on an initially empty cart store
quantity 3. -/
theorem add_to_cart_spec_witness :
    ((((add_to_cart ⟨[⟨1, "Wireless Mouse", 2999, none, none⟩], []⟩ 1)^[3])
        ⟨some [], none, false⟩).cart.getD []).getD 1 = 3 :=
  (add_to_cart_spec ⟨[⟨1, "Wireless Mouse", 2999, none, none⟩], []⟩
    ⟨some [], none, false⟩ 1).2.2 (by decide) rfl 3

/-- Every quantity stored in a cart is at least 1. -/
def CartWF (cart : Cart) : Prop := ∀ e ∈ cart, 1 ≤ e.2

/-- The session cart, when present, is well-formed. -/
def SessionWF (s : Session) : Prop := ∀ cart, s.cart = some cart → CartWF cart

theorem cartWF_of_sessionWF {s : Session} (h : SessionWF s) :
    CartWF (s.cart.getD []) := by
  cases hc : s.cart with
  | none => intro e he; simp at he
  | some c => simpa using h c hc

/-- C5: the quantity-positivity invariant is preserved by every cart
operation: `ensure_cart_exists`, `add_to_cart`, `remove_from_cart` and
`checkout` never store an entry with quantity 0 — an entry that would
reach 0 is removed instead. -/
theorem cart_quantity_invariant (st : Store) (s : Session) (pid : Nat)
    (h : SessionWF s) :
    SessionWF (ensure_cart_exists s)
    ∧ SessionWF (add_to_cart st pid s)
    ∧ SessionWF (remove_from_cart pid s)
    ∧ SessionWF (checkout st s).2.1 := by
  have hwf : CartWF (s.cart.getD []) := cartWF_of_sessionWF h
  refine ⟨?_, ?_, ?_, ?_⟩
  · cases hc : s.cart with
    | none =>
        have heq : ensure_cart_exists s = { s with cart := some [] } := by
          simp [ensure_cart_exists, hc]
        intro c hcc e hme
        rw [heq] at hcc
        simp only [Option.some.injEq] at hcc
        subst hcc
        exact absurd hme (List.not_mem_nil e)
    | some c0 =>
        have heq : ensure_cart_exists s = s := by
          simp [ensure_cart_exists, hc]
        rw [heq]; exact h
  · cases hp : getProduct st.products pid with
    | none => simpa [add_to_cart, hp] using h
    | some p =>
        intro c hcc e he
        simp [add_to_cart, hp] at hcc
        rcases Cart.mem_set _ _ _ _ (hcc ▸ he) with h' | h'
        · exact hwf e h'
        · simp [h']
  · cases hl : (s.cart.getD []).lookup pid with
    | none => simpa [remove_from_cart, hl] using h
    | some q =>
        by_cases h1 : 1 < q
        · intro c hcc e he
          simp [remove_from_cart, hl, h1] at hcc
          rcases Cart.mem_set _ _ _ _ (hcc ▸ he) with h' | h'
          · exact hwf e h'
          · simp [h']; omega
        · intro c hcc e he
          simp [remove_from_cart, hl, h1] at hcc
          exact hwf e (Cart.mem_of_mem_erase _ _ _ (hcc ▸ he))
  · intro c hcc e hme
    have hc0 : (checkout st s).2.1.cart = some ([] : Cart) := rfl
    rw [hc0] at hcc
    simp only [Option.some.injEq] at hcc
    subst hcc
    exact absurd hme (List.not_mem_nil e)

/-- C5 witness: the invariant holds after adding product 1 to a concrete
well-formed session. -/
theorem cart_quantity_invariant_witness :
    SessionWF (add_to_cart ⟨[⟨1, "Wireless Mouse", 2999, none, none⟩], []⟩ 1
      ⟨some [(1, 2)], none, false⟩) :=
  (cart_quantity_invariant ⟨[⟨1, "Wireless Mouse", 2999, none, none⟩], []⟩
    ⟨some [(1, 2)], none, false⟩ 1
    (by
      intro c hc e hme
      injection hc with h2
      subst h2
      simp only [List.mem_singleton] at hme
      subst hme
      decide)).2.1

/-- Whether a POST outcome is a flashed validation failure. -/
def AuthResult.isError : AuthResult → Bool
  | .validationError _ => true
  | .success => false

theorem findUser_append_single (users : List User) (u0 : User) (name : String)
    (h : u0.username = name) :
    (findUser (users ++ [u0]) name).isSome = true := by
  induction users with
  | nil => simp [findUser, h]
  | cons u rest ih =>
    by_cases hu : u.username = name
    · simp [findUser, List.find?_cons, hu]
    · simpa [findUser, List.find?_cons, hu] using ih

/-- C6: `register` fails with a validation error whenever the (stripped)
username or the password is empty or the username already exists as a
case-sensitive exact match, and every such failure leaves the user table
and the session unchanged; moreover after a successful registration a
second attempt with the same username fails and leaves the store
unchanged. -/
theorem register_validation_spec (hash : String → String) (st : Store)
    (s : Session) (u p : String) :
    ((pyStrip u = "" ∨ p = "" ∨ (findUser st.users (pyStrip u)).isSome) →
      (register hash st s u p).1.isError = true
      ∧ (register hash st s u p).2.1 = st
      ∧ (register hash st s u p).2.2 = s)
    ∧ (∀ r st' s' p₂, register hash st s u p = (r, st', s') →
        r = .success →
        (register hash st' s' u p₂).1.isError = true
        ∧ (register hash st' s' u p₂).2.1 = st') := by
  constructor
  · intro hD
    by_cases hA : pyStrip u = "" ∨ p = ""
    · rcases hA with h | h <;> simp [register, h, AuthResult.isError]
    · push_neg at hA
      obtain ⟨hu, hp⟩ := hA
      have hB : (findUser st.users (pyStrip u)).isSome := by
        rcases hD with h | h | h
        · exact absurd h hu
        · exact absurd h hp
        · exact h
      simp [register, hu, hp, hB, AuthResult.isError]
  · intro r st' s' p₂ heq hr
    subst hr
    by_cases hA : pyStrip u = "" ∨ p = ""
    · rcases hA with h | h <;> simp [register, h] at heq
    · push_neg at hA
      obtain ⟨hu, hp⟩ := hA
      by_cases hB : (findUser st.users (pyStrip u)).isSome
      · simp [register, hu, hp, hB] at heq
      · by_cases hv : is_password_valid p
        · simp [register, hu, hp, hB, hv] at heq
          obtain ⟨hst, hs⟩ := heq
          subst hst
          by_cases hp2 : p₂ = ""
          · simp [register, hu, hp2, AuthResult.isError]
          · have hB2 := findUser_append_single st.users
              ⟨nextUserId st.users, pyStrip u, hash p⟩ (pyStrip u) rfl
            simp [register, hu, hp2, hB2, AuthResult.isError]
        · simp [register, hu, hp, hB, hv] at heq

/-- C6 witness: registering with an empty username fails and changes
nothing. -/
theorem register_validation_spec_witness :
    (register id ⟨[], []⟩ ⟨none, none, false⟩ "" "pw").1.isError = true
    ∧ (register id ⟨[], []⟩ ⟨none, none, false⟩ "" "pw").2.1 = ⟨[], []⟩
    ∧ (register id ⟨[], []⟩ ⟨none, none, false⟩ "" "pw").2.2
        = ⟨none, none, false⟩ :=
  (register_validation_spec id ⟨[], []⟩ ⟨none, none, false⟩ "" "pw").1
    (Or.inl (by decide))

/-- C7: the complexity check accepts a password iff its length is at
least 8 and it contains a match for each of the four regex classes
(`[a-z]`, `[A-Z]`, `\d`, `[^A-Za-z0-9]`); "Abcdefgh!" is rejected (no
digit) and "Abcdefg1!" is accepted. -/
theorem is_password_valid_spec (pwd : String) :
    (is_password_valid pwd = true ↔
      (8 ≤ pwd.length
        ∧ (∃ c ∈ pwd.data, isLowerAZ c = true)
        ∧ (∃ c ∈ pwd.data, isUpperAZ c = true)
        ∧ (∃ c ∈ pwd.data, isDigit09 c = true)
        ∧ (∃ c ∈ pwd.data, isSpecialChar c = true)))
    ∧ is_password_valid "Abcdefgh!" = false
    ∧ is_password_valid "Abcdefg1!" = true := by
  refine ⟨?_, by decide, by decide⟩
  simp [is_password_valid, List.any_eq_true, and_assoc]

/-- C7 witness: the accepted example evaluated through the theorem. -/
theorem is_password_valid_spec_witness :
    is_password_valid "Abcdefg1!" = true :=
  (is_password_valid_spec "Abcdefg1!").2.2

/-- C8: a login attempt with an existing username whose hash check fails
and one with a username matching no user produce the very same generic
failure result and leave the session (hence `user_id`) untouched; the two
failure causes are indistinguishable to the caller. -/
theorem login_generic_failure (check : String → String → Bool) (st : Store)
    (s : Session) (u₁ p₁ u₂ p₂ : String) (r₁ r₂ : Bool) (usr : User)
    (h₁ : findUser st.users (pyStrip u₁) = some usr)
    (h₂ : check usr.password_hash p₁ = false)
    (h₃ : findUser st.users (pyStrip u₂) = none) :
    login check st s u₁ p₁ r₁
        = (.validationError "Invalid username or password.", s)
    ∧ login check st s u₂ p₂ r₂
        = (.validationError "Invalid username or password.", s)
    ∧ login check st s u₁ p₁ r₁ = login check st s u₂ p₂ r₂
    ∧ (login check st s u₁ p₁ r₁).2.user_id = s.user_id := by
  have e₁ : login check st s u₁ p₁ r₁
      = (.validationError "Invalid username or password.", s) := by
    simp [login, h₁, h₂]
  have e₂ : login check st s u₂ p₂ r₂
      = (.validationError "Invalid username or password.", s) := by
    simp [login, h₃]
  exact ⟨e₁, e₂, by rw [e₁, e₂], by rw [e₁]⟩

/-- C8 witness: with an equality hash check, a wrong password for "alice"
and a login for unknown "bob" fail identically on a concrete store. -/
theorem login_generic_failure_witness :
    login (fun h pw => h == pw) ⟨[], [⟨1, "alice", "secret"⟩]⟩
        ⟨none, none, false⟩ "alice" "wrong" false
      = (.validationError "Invalid username or password.",
         ⟨none, none, false⟩)
    ∧ login (fun h pw => h == pw) ⟨[], [⟨1, "alice", "secret"⟩]⟩
        ⟨none, none, false⟩ "bob" "secret" true
      = (.validationError "Invalid username or password.",
         ⟨none, none, false⟩)
    ∧ login (fun h pw => h == pw) ⟨[], [⟨1, "alice", "secret"⟩]⟩
        ⟨none, none, false⟩ "alice" "wrong" false
      = login (fun h pw => h == pw) ⟨[], [⟨1, "alice", "secret"⟩]⟩
        ⟨none, none, false⟩ "bob" "secret" true
    ∧ (login (fun h pw => h == pw) ⟨[], [⟨1, "alice", "secret"⟩]⟩
        ⟨none, none, false⟩ "alice" "wrong" false).2.user_id
      = (⟨none, none, false⟩ : Session).user_id :=
  login_generic_failure (fun h pw => h == pw) ⟨[], [⟨1, "alice", "secret"⟩]⟩
    ⟨none, none, false⟩ "alice" "wrong" "bob" "secret" false true
    ⟨1, "alice", "secret"⟩ (by decide) (by decide) (by decide)

theorem dropWhile_rdropWhile_dropWhile (p : Char → Bool) (l : List Char) :
    ((l.dropWhile p).rdropWhile p).dropWhile p
      = (l.dropWhile p).rdropWhile p := by
  rw [List.dropWhile_eq_self_iff]
  intro hl
  have hpref := List.rdropWhile_prefix p (l.dropWhile p)
  have hlen : 0 < (l.dropWhile p).length := lt_of_lt_of_le hl hpref.length_le
  have hx : ((l.dropWhile p).rdropWhile p).get ⟨0, hl⟩
      = (l.dropWhile p).get ⟨0, hlen⟩ := by
    simpa [List.get_eq_getElem] using hpref.getElem hl
  rw [hx]
  exact List.dropWhile_get_zero_not p l hlen

/-- Python `strip` is idempotent. -/
theorem pyStrip_idem (s : String) : pyStrip (pyStrip s) = pyStrip s := by
  refine congrArg String.mk ?_
  show (((s.data.dropWhile isPySpace).rdropWhile isPySpace).dropWhile
        isPySpace).rdropWhile isPySpace
      = (s.data.dropWhile isPySpace).rdropWhile isPySpace
  rw [dropWhile_rdropWhile_dropWhile, List.rdropWhile_idempotent]

/-- Stripping an all-whitespace string yields the empty string. -/
theorem pyStrip_eq_empty_of_all_space (u : String)
    (h : ∀ c ∈ u.data, isPySpace c = true) : pyStrip u = "" := by
  refine congrArg String.mk ?_
  show ((u.data.dropWhile isPySpace).rdropWhile isPySpace) = []
  rw [List.dropWhile_eq_nil_iff.mpr h]
  simp

/-- C10: both `register` and `login` strip the submitted username before
any validation or lookup — each behaves identically on the raw and the
stripped username, and an all-whitespace username is treated as empty and
rejected by `register` — while the password is passed to the policy and
hash checks exactly as submitted: `login` succeeds iff the hash check
accepts the verbatim password, so with an equality check " alice " logs in
as the account "alice" but a whitespace-padded password is rejected. -/
theorem auth_strips_username_not_password (hash : String → String)
    (check : String → String → Bool) (st : Store) (s : Session)
    (u p : String) (r : Bool) :
    register hash st s u p = register hash st s (pyStrip u) p
    ∧ login check st s u p r = login check st s (pyStrip u) p r
    ∧ ((∀ c ∈ u.data, isPySpace c = true) →
        pyStrip u = "" ∧ (register hash st s u p).1.isError = true)
    ∧ (∀ usr, findUser st.users (pyStrip u) = some usr →
        ((login check st s u p r).1 = .success
          ↔ check usr.password_hash p = true))
    ∧ (login (fun hs pw => hs == pw) ⟨[], [⟨1, "alice", "secret"⟩]⟩ s
        " alice " "secret" false).1 = .success
    ∧ (login (fun hs pw => hs == pw) ⟨[], [⟨1, "alice", "secret"⟩]⟩ s
        " alice " "secret" false).2.user_id = some 1
    ∧ (login (fun hs pw => hs == pw) ⟨[], [⟨1, "alice", "secret"⟩]⟩ s
        "alice" " secret " false).1.isError = true := by
  refine ⟨?_, ?_, fun hws => ⟨pyStrip_eq_empty_of_all_space u hws, ?_⟩,
    fun usr husr => ?_, rfl, rfl, rfl⟩
  · unfold register
    rw [pyStrip_idem]
  · unfold login
    rw [pyStrip_idem]
  · simp [register, pyStrip_eq_empty_of_all_space u hws, AuthResult.isError]
  · by_cases hchk : check usr.password_hash p
    · simp [login, husr, hchk]
    · simp [login, husr, hchk]

/-- C10 witness: the all-whitespace username "  " is rejected by a
concrete registration attempt. -/
theorem auth_strips_username_not_password_witness :
    pyStrip "  " = ""
    ∧ (register id ⟨[], []⟩ ⟨none, none, false⟩ "  " "Abcdefg1!").1.isError
        = true :=
  (auth_strips_username_not_password id (fun hs pw => hs == pw) ⟨[], []⟩
    ⟨none, none, false⟩ "  " "Abcdefg1!" false).2.2.1 (by decide)

end Shop
